import Mathlib

/-!
# goserver: the MySQL store factory

A shallow embedding of `internal/goserver/store/mysql/mysql.go`.

* Go pointers that may be nil (`*gorm.DB`, `*sql.DB`, the `store.Factory`
  interface value, `error`) are `Option`s, `none` being nil.
* The package-level variables `mysqlFactory` and `once`, together with the
  heap cells allocated by `&datastore{...}`, form the `Process` state.
* The external collaborators (the `db.New` pool constructor, gorm, the sql
  connection handle) are a `Driver`: a state machine over an arbitrary state
  type whose answers are not constrained in any way.  Every call issued to it
  is appended to a trace, so that "is never invoked" is a statement about the
  trace.
* A nil-pointer dereference is the outcome `Outcome.panicked`.
-/

namespace GoServer

/-! ## Errors -/

/-- Address of a heap-allocated `datastore` (an index into `Process.heap`). -/
abbrev Ptr := Nat

/-- Non-nil values of the Go interface `error`.  `external` is an error made by
an external collaborator; the other two are the values `fmt.Errorf` builds for
the format used in `GetMySQLFactoryOr`: a wrapping error when the `%w` operand
is a non-nil error, a plain error string when that operand is nil.  The
formatted text is kept as the format plus its operands. -/
inductive Error where
  | external (code : Nat)
  | wrapError (format : String) (factory : Option Ptr) (err : Error)
  | errorString (format : String) (factory : Option Ptr)
  deriving DecidableEq, Repr

/-- The call `fmt.Errorf(format, mysqlFactory, err)` with one `%+v` and one `%w` verb. -/
def Errorf (format : String) (factory : Option Ptr) (err : Option Error) : Error :=
  match err with
  | some e => Error.wrapError format factory e
  | none => Error.errorString format factory

/-- The function `errors.Unwrap`. -/
def Unwrap : Error → Option Error
  | Error.wrapError _ _ e => some e
  | Error.external _ => none
  | Error.errorString _ _ => none

/-- Result of running a Go function body: it returns a value or panics. -/
inductive Outcome (α : Type) where
  | returned (a : α)
  | panicked
  deriving DecidableEq, Repr

/-! ## External collaborators -/

/-- A live (non-nil) `*gorm.DB`. -/
structure GormDB where
  id : Nat
  deriving DecidableEq, Repr

/-- A live (non-nil) `*sql.DB`. -/
structure SqlDB where
  id : Nat
  deriving DecidableEq, Repr

/-- The value returned by `logger.New`. -/
structure GormLogger where
  id : Nat
  deriving DecidableEq, Repr

/-- The entity types `v1.User` and `v1.Post`. -/
inductive Model where
  | User
  | Post
  deriving DecidableEq, Repr

/-- The struct `db.Options`. -/
structure Options where
  Host : String
  Username : String
  Password : String
  Database : String
  MaxIdleConnections : Int
  MaxOpenConnections : Int
  MaxConnectionLifeTime : Int
  LogLevel : Int
  Logger : GormLogger
  deriving DecidableEq, Repr

/-- The configuration provider (`viper`) as it stands when a call is made. -/
structure Viper where
  GetString : String → String
  GetInt : String → Int
  GetDuration : String → Int

/-- A call issued to an external collaborator. -/
inductive Call where
  | New (opts : Options)
  | DB (db : GormDB)
  | Close (h : SqlDB)
  | DropTable (db : GormDB) (m : Model)
  | AutoMigrate (db : GormDB) (m : Model)
  deriving DecidableEq, Repr

/-- Behaviour of the external collaborators over a driver state `σ`.  Results
have the shape of the Go signatures: `New` and `DB` return a pointer and an
error, the other three return an error. -/
structure Driver (σ : Type) where
  loggerNew : Int → GormLogger
  New : Options → σ → (Option GormDB × Option Error) × σ
  DB : GormDB → σ → (Option SqlDB × Option Error) × σ
  Close : SqlDB → σ → Option Error × σ
  DropTable : GormDB → Model → σ → Option Error × σ
  AutoMigrate : GormDB → Model → σ → Option Error × σ

/-- Driver state together with the trace of calls issued so far. -/
structure World (σ : Type) where
  state : σ
  trace : List Call

variable {σ : Type}

/-- The call `db.New(options)`. -/
def callNew (drv : Driver σ) (options : Options) (w : World σ) :
    (Option GormDB × Option Error) × World σ :=
  let r := drv.New options w.state
  (r.1, { state := r.2, trace := w.trace ++ [Call.New options] })

/-- The call `g.DB()` on a non-nil `*gorm.DB`. -/
def callDB (drv : Driver σ) (g : GormDB) (w : World σ) :
    (Option SqlDB × Option Error) × World σ :=
  let r := drv.DB g w.state
  (r.1, { state := r.2, trace := w.trace ++ [Call.DB g] })

/-- The call `db.Close()` on a `*sql.DB`; a nil receiver is dereferenced. -/
def callClose (drv : Driver σ) (db : Option SqlDB) (w : World σ) :
    Outcome (Option Error) × World σ :=
  match db with
  | none => (Outcome.panicked, w)
  | some h =>
    let r := drv.Close h w.state
    (Outcome.returned r.1, { state := r.2, trace := w.trace ++ [Call.Close h] })

/-- The call `db.Migrator().DropTable(&m{})`; a nil `db` is dereferenced. -/
def callDropTable (drv : Driver σ) (db : Option GormDB) (m : Model) (w : World σ) :
    Outcome (Option Error) × World σ :=
  match db with
  | none => (Outcome.panicked, w)
  | some g =>
    let r := drv.DropTable g m w.state
    (Outcome.returned r.1, { state := r.2, trace := w.trace ++ [Call.DropTable g m] })

/-- The call `db.AutoMigrate(&m{})`; a nil `db` is dereferenced. -/
def callAutoMigrate (drv : Driver σ) (db : Option GormDB) (m : Model) (w : World σ) :
    Outcome (Option Error) × World σ :=
  match db with
  | none => (Outcome.panicked, w)
  | some g =>
    let r := drv.AutoMigrate g m w.state
    (Outcome.returned r.1, { state := r.2, trace := w.trace ++ [Call.AutoMigrate g m] })

/-! ## The datastore -/

/-- The struct `datastore`. -/
structure datastore where
  db : Option GormDB
  deriving DecidableEq, Repr

/-- The method `(*datastore).Close`. -/
def datastore.Close (drv : Driver σ) (ds : datastore) (w : World σ) :
    Outcome (Option Error) × World σ :=
  match ds.db with
  | none => (Outcome.returned none, w)
  | some g =>
    match callDB drv g w with
    | ((_, some err), w1) => (Outcome.returned (some err), w1)
    | ((db, none), w1) => callClose drv db w1

/-- Calling `Close` on the same datastore `n` times in a row, collecting the outcomes. -/
def closeTimes (drv : Driver σ) (ds : datastore) : Nat → World σ →
    List (Outcome (Option Error)) × World σ
  | 0, w => ([], w)
  | n + 1, w =>
    let r := datastore.Close drv ds w
    let rest := closeTimes drv ds n r.2
    (r.1 :: rest.1, rest.2)

/-! ## The factory singleton -/

/-- Package-level variables, allocated datastores and the outside world. -/
structure Process (σ : Type) where
  mysqlFactory : Option Ptr
  once : Bool
  heap : List datastore
  world : World σ

/-- Process state before anything ran: `mysqlFactory` nil, `once` not fired. -/
def Process.start (w : World σ) : Process σ :=
  { mysqlFactory := none, once := false, heap := [], world := w }

/-- The options literal built inside `once.Do`. -/
def readOptions (drv : Driver σ) (viper : Viper) : Options :=
  { Host := viper.GetString "db.host"
    Username := viper.GetString "db.username"
    Password := viper.GetString "db.password"
    Database := viper.GetString "db.database"
    MaxIdleConnections := viper.GetInt "db.max-idle-connections"
    MaxOpenConnections := viper.GetInt "db.max-open-connections"
    MaxConnectionLifeTime := viper.GetDuration "db.max-connection-life-time"
    LogLevel := viper.GetInt "db.log-level"
    Logger := drv.loggerNew (viper.GetInt "db.log-level") }

/-- The format string of the error built by `GetMySQLFactoryOr`. -/
def factoryErrorFormat : String :=
  "failed to get mysql store fatory, mysqlFactory: %+v, error: %w"

/-- The statement `once.Do(func() { ... })` of `GetMySQLFactoryOr`, acting on
the captured locals `err` and `dbIns` and on the process state. -/
def onceDo (drv : Driver σ) (viper : Viper) (err : Option Error) (dbIns : Option GormDB)
    (p : Process σ) : Option Error × Option GormDB × Process σ :=
  if p.once then (err, dbIns, p)
  else
    let r := callNew drv (readOptions drv viper) p.world
    (r.1.2, r.1.1,
      { mysqlFactory := some p.heap.length
        once := true
        heap := p.heap ++ [{ db := r.1.1 }]
        world := r.2 })

/-- The function `GetMySQLFactoryOr`. -/
def GetMySQLFactoryOr (drv : Driver σ) (viper : Viper) (p : Process σ) :
    (Option Ptr × Option Error) × Process σ :=
  let r := onceDo drv viper none none p
  let err := r.1
  let p1 := r.2.2
  if p1.mysqlFactory.isNone || err.isSome then
    ((none, some (Errorf factoryErrorFormat p1.mysqlFactory err)), p1)
  else
    ((p1.mysqlFactory, none), p1)

/-- The first call of a process. -/
def firstCall (drv : Driver σ) (viper : Viper) (w : World σ) :
    (Option Ptr × Option Error) × Process σ :=
  GetMySQLFactoryOr drv viper (Process.start w)

/-- The call that follows the first one, made under configuration `viper2`. -/
def secondCall (drv : Driver σ) (viper1 viper2 : Viper) (w : World σ) :
    (Option Ptr × Option Error) × Process σ :=
  GetMySQLFactoryOr drv viper2 (firstCall drv viper1 w).2

/-- What `db.New` answers when the first call of a process invokes it. -/
def poolCreation (drv : Driver σ) (viper : Viper) (w : World σ) :
    Option GormDB × Option Error :=
  (drv.New (readOptions drv viper) w.state).1

/-- The datastore a factory value points to. -/
def Process.deref (p : Process σ) (factory : Option Ptr) : Option datastore :=
  match factory with
  | none => none
  | some ptr => p.heap.get? ptr

/-- A finite sequence of calls to `GetMySQLFactoryOr`, one configuration per call. -/
def runCalls (drv : Driver σ) : List Viper → Process σ →
    List (Option Ptr × Option Error) × Process σ
  | [], p => ([], p)
  | v :: vs, p =>
    let r := GetMySQLFactoryOr drv v p
    let rest := runCalls drv vs r.2
    (r.1 :: rest.1, rest.2)

/-- Whether a call is a pool creation (`db.New`). -/
def Call.isNew : Call → Bool
  | Call.New _ => true
  | _ => false

/-- Whether a call is an `AutoMigrate`. -/
def Call.isAutoMigrate : Call → Bool
  | Call.AutoMigrate _ _ => true
  | _ => false

/-- Number of pool creations in a trace. -/
def newCount (t : List Call) : Nat :=
  (t.filter Call.isNew).length

/-! ## Schema maintenance -/

/-- The function `cleanDatabase`. -/
def cleanDatabase (drv : Driver σ) (db : Option GormDB) (w : World σ) :
    Outcome (Option Error) × World σ :=
  match callDropTable drv db Model.User w with
  | (Outcome.panicked, w1) => (Outcome.panicked, w1)
  | (Outcome.returned (some err), w1) => (Outcome.returned (some err), w1)
  | (Outcome.returned none, w1) =>
    match callDropTable drv db Model.Post w1 with
    | (Outcome.panicked, w2) => (Outcome.panicked, w2)
    | (Outcome.returned (some err), w2) => (Outcome.returned (some err), w2)
    | (Outcome.returned none, w2) => (Outcome.returned none, w2)

/-- The function `migrateDatabase`. -/
def migrateDatabase (drv : Driver σ) (db : Option GormDB) (w : World σ) :
    Outcome (Option Error) × World σ :=
  match callAutoMigrate drv db Model.User w with
  | (Outcome.panicked, w1) => (Outcome.panicked, w1)
  | (Outcome.returned (some err), w1) => (Outcome.returned (some err), w1)
  | (Outcome.returned none, w1) =>
    match callAutoMigrate drv db Model.Post w1 with
    | (Outcome.panicked, w2) => (Outcome.panicked, w2)
    | (Outcome.returned (some err), w2) => (Outcome.returned (some err), w2)
    | (Outcome.returned none, w2) => (Outcome.returned none, w2)

/-- The function `resetDatabase`. -/
def resetDatabase (drv : Driver σ) (db : Option GormDB) (w : World σ) :
    Outcome (Option Error) × World σ :=
  match cleanDatabase drv db w with
  | (Outcome.panicked, w1) => (Outcome.panicked, w1)
  | (Outcome.returned (some err), w1) => (Outcome.returned (some err), w1)
  | (Outcome.returned none, w1) =>
    match migrateDatabase drv db w1 with
    | (Outcome.panicked, w2) => (Outcome.panicked, w2)
    | (Outcome.returned (some err), w2) => (Outcome.returned (some err), w2)
    | (Outcome.returned none, w2) => (Outcome.returned none, w2)

/-- What the driver answers to `AutoMigrate` of `User`, the first step of `migrateDatabase`. -/
def migrateUser (drv : Driver σ) (g : GormDB) (w : World σ) : Option Error × σ :=
  drv.AutoMigrate g Model.User w.state

/-- What the driver answers to `AutoMigrate` of `Post` when asked right after `User`. -/
def migratePost (drv : Driver σ) (g : GormDB) (w : World σ) : Option Error × σ :=
  drv.AutoMigrate g Model.Post (migrateUser drv g w).2

/-! ## Concurrent callers

Several callers of `GetMySQLFactoryOr` run interleaved.  A caller takes two
steps: its `once.Do(...)`, then the guard and the return that follow it.
`sync.Once` runs the closure of the first `Do` and lets no `Do` return before
that run is complete; accordingly a `Do` is one step of the interleaving. -/

/-- The statements of `GetMySQLFactoryOr` that follow `once.Do`: the guard and
the two returns, given the local `err`. -/
def afterOnce (err : Option Error) (p : Process σ) : Option Ptr × Option Error :=
  if p.mysqlFactory.isNone || err.isSome then
    (none, some (Errorf factoryErrorFormat p.mysqlFactory err))
  else
    (p.mysqlFactory, none)

/-- Where a caller of `GetMySQLFactoryOr` stands: before its `once.Do`, past it
(holding its locals `err` and `dbIns`), or returned with its result. -/
inductive Caller where
  | waiting
  | past (err : Option Error) (dbIns : Option GormDB)
  | returned (result : Option Ptr × Option Error)
  deriving DecidableEq, Repr

/-- The callers, by index, and the process state they share. -/
structure System (σ : Type) where
  callers : List Caller
  proc : Process σ

/-- All `n` callers are about to enter `GetMySQLFactoryOr` in a fresh process. -/
def System.start (n : Nat) (w : World σ) : System σ :=
  { callers := List.replicate n Caller.waiting, proc := Process.start w }

/-- One step of one caller. -/
def stepCaller (drv : Driver σ) (viper : Viper) (c : Caller) (p : Process σ) :
    Caller × Process σ :=
  match c with
  | Caller.waiting =>
    let r := onceDo drv viper none none p
    (Caller.past r.1 r.2.1, r.2.2)
  | Caller.past err _ => (Caller.returned (afterOnce err p), p)
  | Caller.returned result => (Caller.returned result, p)

/-- The scheduler lets caller `i` take its next step (nothing happens when
there is no caller `i`). -/
def step (drv : Driver σ) (viper : Viper) (i : Nat) (s : System σ) : System σ :=
  match s.callers[i]? with
  | none => s
  | some c =>
    let r := stepCaller drv viper c s.proc
    { callers := s.callers.set i r.1, proc := r.2 }

/-- Running a schedule: the list of the callers that step, in order. -/
def runSchedule (drv : Driver σ) (viper : Viper) : List Nat → System σ → System σ
  | [], s => s
  | i :: rest, s => runSchedule drv viper rest (step drv viper i s)

/-- The run of `n` callers from a fresh process under a schedule. -/
def concurrentRun (drv : Driver σ) (viper : Viper) (n : Nat) (schedule : List Nat)
    (w : World σ) : System σ :=
  runSchedule drv viper schedule (System.start n w)

/-- Number of steps a caller has taken (at most two). -/
def Caller.phase : Caller → Nat
  | Caller.waiting => 0
  | Caller.past _ _ => 1
  | Caller.returned _ => 2

/-- A caller state that can occur when the one pool creation succeeded: no
error held after `once.Do`, and the stored factory with a nil error returned. -/
def Caller.ok : Caller → Prop
  | Caller.waiting => True
  | Caller.past err _ => err = none
  | Caller.returned result => result = (some 0, none)

/-- What holds of the system when all callers share the configuration `viper`
and the one pool creation succeeds: either nobody has entered `once.Do` and
the process is fresh, or the process is in the state the first `once.Do` left
and every caller is in an `ok` state. -/
def System.inv (drv : Driver σ) (viper : Viper) (w : World σ) (s : System σ) : Prop :=
  (s.proc = Process.start w ∧ ∀ c ∈ s.callers, c = Caller.waiting) ∨
    (s.proc = (firstCall drv viper w).2 ∧ ∀ c ∈ s.callers, Caller.ok c)

/-! ## Concrete collaborators used to evaluate the code -/

/-- A configuration provider answering every key with the same values. -/
def sampleViper (host : String) : Viper :=
  { GetString := fun _ => host, GetInt := fun _ => 1, GetDuration := fun _ => 10 }

/-- A driver over a call counter.  Pool creation fails with `external 7` while
the counter is below `newFailsBelow` and hands out pool 42 afterwards; `DB`
fails with `external 8` when `dbFails` is set; `Close` reports `closeErr`;
`DropTable` and `AutoMigrate` fail on the models listed in `dropFails` and
`migrateFails`. -/
def sampleDriver (newFailsBelow : Nat) (dbFails : Bool) (closeErr : Option Error)
    (dropFails migrateFails : List Model) : Driver Nat :=
  { loggerNew := fun lvl => { id := lvl.toNat }
    New := fun _ n =>
      if n < newFailsBelow then ((none, some (Error.external 7)), n + 1)
      else ((some { id := 42 }, none), n + 1)
    DB := fun g n =>
      if dbFails then ((none, some (Error.external 8)), n + 1)
      else ((some { id := g.id + 1 }, none), n + 1)
    Close := fun _ n => (closeErr, n + 1)
    DropTable := fun _ m n =>
      if m ∈ dropFails then (some (Error.external 9), n + 1) else (none, n + 1)
    AutoMigrate := fun _ m n =>
      if m ∈ migrateFails then (some (Error.external 10), n + 1) else (none, n + 1) }

/-- A driver whose `DB` hands out neither a connection handle nor an error. -/
def nilHandleDriver : Driver Nat :=
  { loggerNew := fun lvl => { id := lvl.toNat }
    New := fun _ n => ((some { id := 42 }, none), n + 1)
    DB := fun _ n => ((none, none), n + 1)
    Close := fun _ n => (none, n + 1)
    DropTable := fun _ _ n => (none, n + 1)
    AutoMigrate := fun _ _ n => (none, n + 1) }

/-- The world before any call: counter at zero, empty trace. -/
def world0 : World Nat :=
  { state := 0, trace := [] }

/-! ## Lemmas on the one-time latch -/

theorem GetMySQLFactoryOr_of_fired (drv : Driver σ) (viper : Viper) (p : Process σ) (ptr : Ptr)
    (honce : p.once = true) (hfac : p.mysqlFactory = some ptr) :
    GetMySQLFactoryOr drv viper p = ((some ptr, none), p) := by
  simp [GetMySQLFactoryOr, onceDo, honce, hfac]

theorem firstCall_state (drv : Driver σ) (viper : Viper) (w : World σ) :
    (firstCall drv viper w).2 =
      { mysqlFactory := some 0
        once := true
        heap := [{ db := (poolCreation drv viper w).1 }]
        world := { state := (drv.New (readOptions drv viper) w.state).2
                   trace := w.trace ++ [Call.New (readOptions drv viper)] } } := by
  cases h : (drv.New (readOptions drv viper) w.state).1.2 <;>
    simp [firstCall, GetMySQLFactoryOr, onceDo, Process.start, callNew, poolCreation, h]

theorem firstCall_result (drv : Driver σ) (viper : Viper) (w : World σ) :
    (firstCall drv viper w).1 =
      match (poolCreation drv viper w).2 with
      | none => (some 0, none)
      | some e => (none, some (Error.wrapError factoryErrorFormat (some 0) e)) := by
  cases h : (poolCreation drv viper w).2 <;>
    simp [poolCreation] at h <;>
    simp [firstCall, GetMySQLFactoryOr, onceDo, Process.start, callNew, h, Errorf]

/-- Whatever `db.New` answered during the first call, the call made next returns
the stored factory with a nil error and changes nothing. -/
theorem secondCall_eq (drv : Driver σ) (viper1 viper2 : Viper) (w : World σ) :
    secondCall drv viper1 viper2 w = ((some 0, none), (firstCall drv viper1 w).2) := by
  rw [secondCall, GetMySQLFactoryOr_of_fired _ _ _ 0 (by rw [firstCall_state])
    (by rw [firstCall_state])]

theorem runCalls_of_fired (drv : Driver σ) (vs : List Viper) (p : Process σ) (ptr : Ptr)
    (honce : p.once = true) (hfac : p.mysqlFactory = some ptr) :
    runCalls drv vs p = (vs.map (fun _ => (some ptr, none)), p) := by
  induction vs with
  | nil => rfl
  | cons v vs ih => simp [runCalls, GetMySQLFactoryOr_of_fired drv v p ptr honce hfac, ih]

theorem newCount_append (t u : List Call) : newCount (t ++ u) = newCount t + newCount u := by
  simp [newCount]

/-! ## The factory singleton: claims -/

/-- C1 (the code departs from the claim).  Pool creation fails during the first
call, which returns a nil factory and an error wrapping the driver error
`external 7`.  The second call, made under another configuration, returns a
non-nil factory and a nil error: the error of the first call lived in a local
variable and `mysqlFactory` was assigned the address of a datastore whose pool
is nil, so neither test of the final `if` fires. -/
theorem GetMySQLFactoryOr_failure_forgotten :
    (firstCall (sampleDriver 1 false none [] []) (sampleViper "h1") world0).1 =
        (none, some (Error.wrapError factoryErrorFormat (some 0) (Error.external 7))) ∧
      (secondCall (sampleDriver 1 false none [] []) (sampleViper "h1") (sampleViper "h2")
          world0).1 = (some 0, none) ∧
      (secondCall (sampleDriver 1 false none [] []) (sampleViper "h1") (sampleViper "h2")
          world0).2.heap = [{ db := none }] := by
  refine ⟨?_, ?_, ?_⟩
  · rw [firstCall_result]; rfl
  · rw [secondCall_eq]
  · rw [secondCall_eq, firstCall_state]
    rfl

/-- C2.  When `db.New` reports no error during the first call, the call made
next (under any configuration) returns the same factory value as the first
call, which is non-nil, with a nil error, and leaves the outside world (driver
state and trace of driver calls), the heap and the package variables as the
first call left them: no pool is created. -/
theorem GetMySQLFactoryOr_second_call_same_instance (drv : Driver σ) (viper1 viper2 : Viper)
    (w : World σ) (hok : (poolCreation drv viper1 w).2 = none) :
    (secondCall drv viper1 viper2 w).1 = (firstCall drv viper1 w).1 ∧
      (secondCall drv viper1 viper2 w).1.1 = some 0 ∧
      (secondCall drv viper1 viper2 w).1.2 = none ∧
      (secondCall drv viper1 viper2 w).2.world = (firstCall drv viper1 w).2.world ∧
      (secondCall drv viper1 viper2 w).2.heap = (firstCall drv viper1 w).2.heap ∧
      (secondCall drv viper1 viper2 w).2.mysqlFactory = (firstCall drv viper1 w).2.mysqlFactory := by
  have h2 := secondCall_eq drv viper1 viper2 w
  have h1 : (firstCall drv viper1 w).1 = (some 0, none) := by
    rw [firstCall_result, hok]
  rw [h2, h1]
  simp

theorem GetMySQLFactoryOr_second_call_same_instance_witness :
    (poolCreation (sampleDriver 0 false none [] []) (sampleViper "h1") world0).2 = none ∧
      (secondCall (sampleDriver 0 false none [] []) (sampleViper "h1") (sampleViper "h2")
          world0).1 = (some 0, none) ∧
      (secondCall (sampleDriver 0 false none [] []) (sampleViper "h1") (sampleViper "h2")
          world0).2.world.trace =
        [Call.New (readOptions (sampleDriver 0 false none [] []) (sampleViper "h1"))] := by
  have h := GetMySQLFactoryOr_second_call_same_instance (sampleDriver 0 false none [] [])
    (sampleViper "h1") (sampleViper "h2") world0 rfl
  refine ⟨rfl, ?_, ?_⟩
  · exact Prod.ext h.2.1 h.2.2.1
  · rw [h.2.2.2.1, firstCall_state]
    rfl

/-- C3.  In a sequence of calls made from the start of the process, `db.New` is
invoked once by the first call (that call appends exactly one driver call, a
`New`, to the trace), every later call leaves the outside world untouched, and
so the number of pool creations added by the whole sequence is one when the
sequence is non-empty and zero when it is empty, whatever `db.New` answered. -/
theorem GetMySQLFactoryOr_creates_pool_once (drv : Driver σ) (viper : Viper) (vs : List Viper)
    (w : World σ) :
    (firstCall drv viper w).2.world.trace = w.trace ++ [Call.New (readOptions drv viper)] ∧
      (runCalls drv vs (firstCall drv viper w).2).2.world = (firstCall drv viper w).2.world ∧
      newCount (runCalls drv (viper :: vs) (Process.start w)).2.world.trace
        = newCount w.trace + 1 ∧
      newCount (runCalls drv [] (Process.start w)).2.world.trace = newCount w.trace := by
  have hrun : runCalls drv vs (firstCall drv viper w).2 =
      (vs.map (fun _ => (some 0, none)), (firstCall drv viper w).2) :=
    runCalls_of_fired drv vs _ 0 (by rw [firstCall_state]) (by rw [firstCall_state])
  have htrace : (firstCall drv viper w).2.world.trace =
      w.trace ++ [Call.New (readOptions drv viper)] := by
    rw [firstCall_state]
  refine ⟨htrace, ?_, ?_, rfl⟩
  · rw [hrun]
  · have : (runCalls drv (viper :: vs) (Process.start w)).2 =
        (runCalls drv vs (firstCall drv viper w).2).2 := rfl
    rw [this, hrun, htrace, newCount_append]
    rfl

/-- C4.  The first call of a process: when `db.New` reports no error the call
returns a non-nil factory and a nil error, and the factory points to a
datastore holding the pool `db.New` returned; when `db.New` reports the error
`e` the call returns a nil factory and a non-nil error whose unwrapping is
`e`.  Hence the first call returns an error exactly when pool creation failed. -/
theorem GetMySQLFactoryOr_first_call (drv : Driver σ) (viper : Viper) (w : World σ) :
    ((poolCreation drv viper w).2 = none →
        (firstCall drv viper w).1.1 ≠ none ∧ (firstCall drv viper w).1.2 = none ∧
        (firstCall drv viper w).2.deref (firstCall drv viper w).1.1 =
          some { db := (poolCreation drv viper w).1 }) ∧
      (∀ e, (poolCreation drv viper w).2 = some e →
        (firstCall drv viper w).1.1 = none ∧
        ∃ err, (firstCall drv viper w).1.2 = some err ∧ Unwrap err = some e) ∧
      ((firstCall drv viper w).1.2 ≠ none ↔ (poolCreation drv viper w).2 ≠ none) := by
  refine ⟨?_, ?_, ?_⟩
  · intro h
    rw [firstCall_result, firstCall_state, h]
    simp [Process.deref]
  · intro e h
    rw [firstCall_result, h]
    exact ⟨rfl, _, rfl, rfl⟩
  · rw [firstCall_result]
    cases h : (poolCreation drv viper w).2 <;> simp

theorem GetMySQLFactoryOr_first_call_witness :
    ((firstCall (sampleDriver 0 false none [] []) (sampleViper "h1") world0).1.1 ≠ none ∧
        (firstCall (sampleDriver 0 false none [] []) (sampleViper "h1") world0).1.2 = none) ∧
      (firstCall (sampleDriver 1 false none [] []) (sampleViper "h1") world0).1.1 = none ∧
      (firstCall (sampleDriver 1 false none [] []) (sampleViper "h1") world0).1.2 ≠ none := by
  have hs := (GetMySQLFactoryOr_first_call (sampleDriver 0 false none [] [])
    (sampleViper "h1") world0).1 rfl
  have hf := GetMySQLFactoryOr_first_call (sampleDriver 1 false none [] [])
    (sampleViper "h1") world0
  exact ⟨⟨hs.1, hs.2.1⟩, (hf.2.1 (Error.external 7) rfl).1, hf.2.2.mpr (by decide)⟩

/-! ## Close: claims -/

/-- C5.  On a datastore whose `db` field is nil, `Close` returns a nil error and
leaves the outside world as it was (no driver call is issued, the driver state
does not move); calling it `n` times in a row gives `n` nil errors and still
the same world. -/
theorem Close_without_pool (drv : Driver σ) (ds : datastore) (w : World σ) (n : Nat)
    (hnil : ds.db = none) :
    datastore.Close drv ds w = (Outcome.returned none, w) ∧
      closeTimes drv ds n w = (List.replicate n (Outcome.returned none), w) := by
  have h1 : ∀ v : World σ, datastore.Close drv ds v = (Outcome.returned none, v) := by
    intro v
    simp [datastore.Close, hnil]
  refine ⟨h1 w, ?_⟩
  induction n with
  | zero => rfl
  | succ k ih => simp [closeTimes, h1, ih, List.replicate_succ]

theorem Close_without_pool_witness :
    datastore.Close (sampleDriver 0 true (some (Error.external 3)) [] []) { db := none } world0
        = (Outcome.returned none, world0) ∧
      closeTimes (sampleDriver 0 true (some (Error.external 3)) [] []) { db := none } 3 world0
        = ([Outcome.returned none, Outcome.returned none, Outcome.returned none], world0) :=
  Close_without_pool (sampleDriver 0 true (some (Error.external 3)) [] []) { db := none }
    world0 3 rfl

/-- C6 (the claim as stated fails).  The datastore holds a live pool and `DB()`
reports no error, yet `Close` does not return the result of a driver `Close`:
`DB()` handed out a nil handle, the method call on it panics, and the only
driver call issued is the `DB`. -/
theorem Close_nil_handle_panics :
    ({ db := some { id := 5 } } : datastore).db ≠ none ∧
      (nilHandleDriver.DB { id := 5 } world0.state).1.2 = none ∧
      datastore.Close nilHandleDriver { db := some { id := 5 } } world0
        = (Outcome.panicked, { state := 1, trace := [Call.DB { id := 5 }] }) ∧
      ¬ ∃ r, (datastore.Close nilHandleDriver { db := some { id := 5 } } world0).1
        = Outcome.returned r := by
  refine ⟨by decide, rfl, rfl, ?_⟩
  rintro ⟨r, hr⟩
  have hp : (datastore.Close nilHandleDriver { db := some { id := 5 } } world0).1
      = Outcome.panicked := rfl
  rw [hp] at hr
  cases hr

/-- C6 (amended).  On a datastore whose `db` field is the live pool `g`: when `g.DB()`
reports the error `e`, `Close` returns `e` and the only driver call issued is
that `DB`; when `g.DB()` hands out the connection handle `h` with no error,
`Close` returns what the driver's `Close` of `h` reports, unchanged, and the
driver calls issued are that `DB` followed by one `Close` of `h`. -/
theorem Close_with_pool (drv : Driver σ) (ds : datastore) (g : GormDB) (w : World σ)
    (hpool : ds.db = some g) :
    (∀ e, (drv.DB g w.state).1.2 = some e →
        datastore.Close drv ds w =
          (Outcome.returned (some e),
            { state := (drv.DB g w.state).2, trace := w.trace ++ [Call.DB g] })) ∧
      (∀ h, (drv.DB g w.state).1 = (some h, none) →
        datastore.Close drv ds w =
          (Outcome.returned (drv.Close h (drv.DB g w.state).2).1,
            { state := (drv.Close h (drv.DB g w.state).2).2
              trace := w.trace ++ [Call.DB g, Call.Close h] })) := by
  constructor
  · intro e he
    rcases hr : drv.DB g w.state with ⟨⟨h, err⟩, s1⟩
    rw [hr] at he
    simp only at he
    subst he
    simp [datastore.Close, hpool, callDB, hr]
  · intro h hh
    rcases hr : drv.DB g w.state with ⟨⟨h1, err⟩, s1⟩
    rw [hr] at hh
    simp only [Prod.mk.injEq] at hh
    obtain ⟨rfl, rfl⟩ := hh
    simp [datastore.Close, hpool, callDB, hr, callClose]

theorem Close_with_pool_witness :
    datastore.Close (sampleDriver 0 true none [] []) { db := some { id := 5 } } world0
        = (Outcome.returned (some (Error.external 8)),
            { state := 1, trace := [Call.DB { id := 5 }] }) ∧
      datastore.Close (sampleDriver 0 false (some (Error.external 3)) [] [])
          { db := some { id := 5 } } world0
        = (Outcome.returned (some (Error.external 3)),
            { state := 2, trace := [Call.DB { id := 5 }, Call.Close { id := 6 }] }) ∧
      datastore.Close (sampleDriver 0 false none [] []) { db := some { id := 5 } } world0
        = (Outcome.returned none,
            { state := 2, trace := [Call.DB { id := 5 }, Call.Close { id := 6 }] }) :=
  ⟨(Close_with_pool (sampleDriver 0 true none [] []) { db := some { id := 5 } } { id := 5 }
      world0 rfl).1 (Error.external 8) rfl,
    (Close_with_pool (sampleDriver 0 false (some (Error.external 3)) [] [])
      { db := some { id := 5 } } { id := 5 } world0 rfl).2 { id := 6 } rfl,
    (Close_with_pool (sampleDriver 0 false none [] []) { db := some { id := 5 } } { id := 5 }
      world0 rfl).2 { id := 6 } rfl⟩

/-! ## Schema maintenance: lemmas and claims -/

theorem cleanDatabase_trace (drv : Driver σ) (db : Option GormDB) (w : World σ) :
    ∃ issued, (cleanDatabase drv db w).2.trace = w.trace ++ issued ∧
      ∀ c ∈ issued, Call.isAutoMigrate c = false := by
  cases db with
  | none => exact ⟨[], by simp [cleanDatabase, callDropTable]⟩
  | some g =>
    cases hu : (drv.DropTable g Model.User w.state).1 with
    | some e =>
      exact ⟨[Call.DropTable g Model.User],
        by simp [cleanDatabase, callDropTable, hu, Call.isAutoMigrate]⟩
    | none =>
      refine ⟨[Call.DropTable g Model.User, Call.DropTable g Model.Post], ?_⟩
      cases hp : (drv.DropTable g Model.Post (drv.DropTable g Model.User w.state).2).1 <;>
        simp [cleanDatabase, callDropTable, hu, hp, Call.isAutoMigrate]

theorem resetDatabase_of_clean_ok (drv : Driver σ) (db : Option GormDB) (w : World σ)
    (hclean : (cleanDatabase drv db w).1 = Outcome.returned none) :
    resetDatabase drv db w = migrateDatabase drv db (cleanDatabase drv db w).2 := by
  rcases hc : cleanDatabase drv db w with ⟨rc, wc⟩
  rw [hc] at hclean
  simp only at hclean
  subst hclean
  rcases hm : migrateDatabase drv db wc with ⟨rm, wm⟩
  rcases rm with (_ | _) | _ <;> simp [resetDatabase, hc, hm]

/-- C7.  `resetDatabase` first runs `cleanDatabase`.  When clean returns the
error `e`, reset returns `e` in the world clean left, and none of the driver
calls issued is an `AutoMigrate`.  When clean returns nil, reset is
`migrateDatabase` run in the world clean left: same result, same world.  So
reset returns nil exactly when clean and then migrate both returned nil. -/
theorem resetDatabase_clean_then_migrate (drv : Driver σ) (db : Option GormDB) (w : World σ) :
    (∀ e, (cleanDatabase drv db w).1 = Outcome.returned (some e) →
        resetDatabase drv db w = (Outcome.returned (some e), (cleanDatabase drv db w).2) ∧
        ∃ issued, (resetDatabase drv db w).2.trace = w.trace ++ issued ∧
          ∀ c ∈ issued, Call.isAutoMigrate c = false) ∧
      ((cleanDatabase drv db w).1 = Outcome.returned none →
        resetDatabase drv db w = migrateDatabase drv db (cleanDatabase drv db w).2) ∧
      ((resetDatabase drv db w).1 = Outcome.returned none ↔
        (cleanDatabase drv db w).1 = Outcome.returned none ∧
          (migrateDatabase drv db (cleanDatabase drv db w).2).1 = Outcome.returned none) := by
  refine ⟨?_, resetDatabase_of_clean_ok drv db w, ?_⟩
  · intro e he
    have hr : resetDatabase drv db w =
        (Outcome.returned (some e), (cleanDatabase drv db w).2) := by
      rcases hc : cleanDatabase drv db w with ⟨rc, wc⟩
      rw [hc] at he
      simp only at he
      subst he
      simp [resetDatabase, hc]
    refine ⟨hr, ?_⟩
    rw [hr]
    exact cleanDatabase_trace drv db w
  · constructor
    · intro h
      rcases hc : cleanDatabase drv db w with ⟨rc, wc⟩
      rcases rc with (_ | e) | _
      · have hok := resetDatabase_of_clean_ok drv db w (by rw [hc])
        rw [hc] at hok
        exact ⟨rfl, by rw [← hok]; exact h⟩
      · simp [resetDatabase, hc] at h
      · simp [resetDatabase, hc] at h
    · rintro ⟨h1, h2⟩
      rw [resetDatabase_of_clean_ok drv db w h1]
      exact h2

theorem resetDatabase_clean_then_migrate_witness :
    resetDatabase (sampleDriver 0 false none [Model.Post] []) (some { id := 5 }) world0
        = (Outcome.returned (some (Error.external 9)),
            { state := 2
              trace := [Call.DropTable { id := 5 } Model.User,
                        Call.DropTable { id := 5 } Model.Post] }) ∧
      resetDatabase (sampleDriver 0 false none [] [Model.User]) (some { id := 5 }) world0
        = (Outcome.returned (some (Error.external 10)),
            { state := 3
              trace := [Call.DropTable { id := 5 } Model.User,
                        Call.DropTable { id := 5 } Model.Post,
                        Call.AutoMigrate { id := 5 } Model.User] }) :=
  ⟨((resetDatabase_clean_then_migrate (sampleDriver 0 false none [Model.Post] [])
      (some { id := 5 }) world0).1 (Error.external 9) rfl).1,
    (resetDatabase_clean_then_migrate (sampleDriver 0 false none [] [Model.User])
      (some { id := 5 }) world0).2.1 rfl⟩

/-- C8.  `migrateDatabase` on the live pool `g` asks for `AutoMigrate` of `User`
first.  When that reports the error `e`, `e` is returned and the only driver
call issued is that one.  When it reports no error, `AutoMigrate` of `Post` is
asked next and its result is returned.  The function returns nil exactly when
both reported no error, and the driver calls it issues are an initial segment
of `[AutoMigrate User, AutoMigrate Post]`.  On a nil pool it panics before any
driver call. -/
theorem migrateDatabase_fail_fast (drv : Driver σ) (g : GormDB) (w : World σ) :
    (∀ e, (migrateUser drv g w).1 = some e →
        migrateDatabase drv (some g) w =
          (Outcome.returned (some e),
            { state := (migrateUser drv g w).2
              trace := w.trace ++ [Call.AutoMigrate g Model.User] })) ∧
      ((migrateUser drv g w).1 = none →
        migrateDatabase drv (some g) w =
          (Outcome.returned (migratePost drv g w).1,
            { state := (migratePost drv g w).2
              trace := w.trace ++
                [Call.AutoMigrate g Model.User, Call.AutoMigrate g Model.Post] })) ∧
      ((migrateDatabase drv (some g) w).1 = Outcome.returned none ↔
        (migrateUser drv g w).1 = none ∧ (migratePost drv g w).1 = none) ∧
      (∃ issued, (migrateDatabase drv (some g) w).2.trace = w.trace ++ issued ∧
        issued <+: [Call.AutoMigrate g Model.User, Call.AutoMigrate g Model.Post]) ∧
      migrateDatabase drv none w = (Outcome.panicked, w) := by
  have herr : ∀ e, (migrateUser drv g w).1 = some e →
      migrateDatabase drv (some g) w =
        (Outcome.returned (some e),
          { state := (migrateUser drv g w).2
            trace := w.trace ++ [Call.AutoMigrate g Model.User] }) := by
    intro e he
    simp only [migrateUser] at he
    simp [migrateDatabase, callAutoMigrate, he, migrateUser]
  have hok : (migrateUser drv g w).1 = none →
      migrateDatabase drv (some g) w =
        (Outcome.returned (migratePost drv g w).1,
          { state := (migratePost drv g w).2
            trace := w.trace ++
              [Call.AutoMigrate g Model.User, Call.AutoMigrate g Model.Post] }) := by
    intro hu
    simp only [migrateUser] at hu
    cases hp : (drv.AutoMigrate g Model.Post (drv.AutoMigrate g Model.User w.state).2).1 <;>
      simp [migrateDatabase, callAutoMigrate, hu, hp, migrateUser, migratePost]
  refine ⟨herr, hok, ?_, ?_, by simp [migrateDatabase, callAutoMigrate]⟩
  · cases hu : (migrateUser drv g w).1 with
    | some e => simp [herr e hu]
    | none => simp [hok hu]
  · cases hu : (migrateUser drv g w).1 with
    | some e =>
      exact ⟨[Call.AutoMigrate g Model.User], by rw [herr e hu],
        ⟨[Call.AutoMigrate g Model.Post], rfl⟩⟩
    | none =>
      exact ⟨[Call.AutoMigrate g Model.User, Call.AutoMigrate g Model.Post], by rw [hok hu],
        List.prefix_refl _⟩

theorem migrateDatabase_fail_fast_witness :
    migrateDatabase (sampleDriver 0 false none [] [Model.User, Model.Post]) (some { id := 5 })
        world0
        = (Outcome.returned (some (Error.external 10)),
            { state := 1, trace := [Call.AutoMigrate { id := 5 } Model.User] }) ∧
      migrateDatabase (sampleDriver 0 false none [] [Model.Post]) (some { id := 5 }) world0
        = (Outcome.returned (some (Error.external 10)),
            { state := 2
              trace := [Call.AutoMigrate { id := 5 } Model.User,
                        Call.AutoMigrate { id := 5 } Model.Post] }) :=
  ⟨(migrateDatabase_fail_fast (sampleDriver 0 false none [] [Model.User, Model.Post])
      { id := 5 } world0).1 (Error.external 10) rfl,
    (migrateDatabase_fail_fast (sampleDriver 0 false none [] [Model.Post])
      { id := 5 } world0).2.1 rfl⟩

/-! ## Concurrent callers: lemmas and claim -/

theorem GetMySQLFactoryOr_eq_afterOnce (drv : Driver σ) (viper : Viper) (p : Process σ) :
    GetMySQLFactoryOr drv viper p =
      (afterOnce (onceDo drv viper none none p).1 (onceDo drv viper none none p).2.2,
        (onceDo drv viper none none p).2.2) := by
  simp only [GetMySQLFactoryOr, afterOnce]
  split <;> rfl

theorem onceDo_start (drv : Driver σ) (viper : Viper) (w : World σ) :
    onceDo drv viper none none (Process.start w) =
      ((poolCreation drv viper w).2, (poolCreation drv viper w).1, (firstCall drv viper w).2) := by
  rw [firstCall_state]
  rfl

theorem onceDo_fired (drv : Driver σ) (viper : Viper) (w : World σ) :
    onceDo drv viper none none (firstCall drv viper w).2 =
      (none, none, (firstCall drv viper w).2) := by
  rw [firstCall_state]
  rfl

theorem afterOnce_fired (drv : Driver σ) (viper : Viper) (w : World σ) :
    afterOnce none (firstCall drv viper w).2 = (some 0, none) := by
  rw [firstCall_state]
  rfl

theorem stepCaller_fresh (drv : Driver σ) (viper : Viper) (w : World σ)
    (hok : (poolCreation drv viper w).2 = none) :
    stepCaller drv viper Caller.waiting (Process.start w) =
      (Caller.past none (poolCreation drv viper w).1, (firstCall drv viper w).2) := by
  simp [stepCaller, onceDo_start, hok]

theorem stepCaller_ok (drv : Driver σ) (viper : Viper) (w : World σ) (c : Caller)
    (hc : Caller.ok c) :
    (stepCaller drv viper c (firstCall drv viper w).2).2 = (firstCall drv viper w).2 ∧
      Caller.ok (stepCaller drv viper c (firstCall drv viper w).2).1 := by
  cases c with
  | waiting => simp [stepCaller, onceDo_fired, Caller.ok]
  | past err d =>
    simp only [Caller.ok] at hc
    subst hc
    simp [stepCaller, afterOnce_fired, Caller.ok]
  | returned res => exact ⟨rfl, hc⟩

theorem inv_start (drv : Driver σ) (viper : Viper) (w : World σ) (n : Nat) :
    System.inv drv viper w (System.start n w) := by
  left
  refine ⟨rfl, ?_⟩
  intro c hc
  exact List.eq_of_mem_replicate hc

theorem inv_step (drv : Driver σ) (viper : Viper) (w : World σ)
    (hok : (poolCreation drv viper w).2 = none) (i : Nat) (s : System σ)
    (hs : System.inv drv viper w s) : System.inv drv viper w (step drv viper i s) := by
  unfold step
  cases hget : s.callers[i]? with
  | none => exact hs
  | some c =>
    have hmem : c ∈ s.callers := List.getElem?_mem hget
    right
    rcases hs with ⟨hp, hall⟩ | ⟨hp, hall⟩
    · have hc := hall c hmem
      subst hc
      simp only [hp, stepCaller_fresh drv viper w hok]
      refine ⟨trivial, ?_⟩
      intro d hd
      rcases List.mem_or_eq_of_mem_set hd with hd | hd
      · rw [hall d hd]; trivial
      · rw [hd]; rfl
    · have hstep := stepCaller_ok drv viper w c (hall c hmem)
      simp only [hp]
      refine ⟨hstep.1, ?_⟩
      intro d hd
      rcases List.mem_or_eq_of_mem_set hd with hd | hd
      · exact hall d hd
      · rw [hd]; exact hstep.2

theorem inv_run (drv : Driver σ) (viper : Viper) (w : World σ)
    (hok : (poolCreation drv viper w).2 = none) (schedule : List Nat) (s : System σ)
    (hs : System.inv drv viper w s) :
    System.inv drv viper w (runSchedule drv viper schedule s) := by
  induction schedule generalizing s with
  | nil => exact hs
  | cons i rest ih => exact ih _ (inv_step drv viper w hok i s hs)

theorem phase_stepCaller (drv : Driver σ) (viper : Viper) (c : Caller) (p : Process σ) :
    Caller.phase (stepCaller drv viper c p).1 = min 2 (Caller.phase c + 1) := by
  cases c <;> rfl

theorem phase_step (drv : Driver σ) (viper : Viper) (i j : Nat) (s : System σ) :
    ((step drv viper i s).callers[j]?).map Caller.phase =
      (s.callers[j]?).map (fun c => min 2 (Caller.phase c + if i = j then 1 else 0)) := by
  unfold step
  cases hget : s.callers[i]? with
  | none =>
    by_cases hij : i = j
    · subst hij
      simp [hget]
    · cases hj : s.callers[j]? with
      | none => simp
      | some d => cases d <;> simp [hij, Caller.phase]
  | some c =>
    by_cases hij : i = j
    · subst hij
      have hlt : i < s.callers.length := (List.getElem?_eq_some.mp hget).1
      simp [hget, List.getElem?_set_self hlt, phase_stepCaller]
    · simp only [List.getElem?_set_ne hij, hij, if_false, Nat.add_zero]
      cases hj : s.callers[j]? with
      | none => simp
      | some d => cases d <;> simp [Caller.phase]

theorem phase_step_some (drv : Driver σ) (viper : Viper) (i j : Nat) (s : System σ)
    (c : Caller) (hc : s.callers[j]? = some c) :
    ∃ d, (step drv viper i s).callers[j]? = some d ∧
      Caller.phase d = min 2 (Caller.phase c + if i = j then 1 else 0) := by
  have h := phase_step drv viper i j s
  rw [hc, Option.map_some'] at h
  obtain ⟨d, hd, hph⟩ := Option.map_eq_some'.mp h
  exact ⟨d, hd, hph⟩

theorem phase_run (drv : Driver σ) (viper : Viper) (schedule : List Nat) (j : Nat)
    (s : System σ) (c : Caller) (hc : s.callers[j]? = some c) :
    ∃ d, (runSchedule drv viper schedule s).callers[j]? = some d ∧
      Caller.phase d = min 2 (Caller.phase c + schedule.count j) := by
  induction schedule generalizing s c with
  | nil =>
    refine ⟨c, hc, ?_⟩
    cases c <;> simp [Caller.phase]
  | cons i rest ih =>
    obtain ⟨d, hd, hph⟩ := phase_step_some drv viper i j s c hc
    obtain ⟨e, he, hpe⟩ := ih (step drv viper i s) d hd
    refine ⟨e, he, ?_⟩
    rw [hpe, hph, List.count_cons]
    by_cases hij : i = j
    · simp only [hij, if_true, beq_self_eq_true]
      omega
    · have hne : (i == j) = false := by simpa using hij
      simp only [if_neg hij, hne, Bool.false_eq_true, if_false]
      omega

theorem phase_from_start (drv : Driver σ) (viper : Viper) (w : World σ) (n : Nat)
    (schedule : List Nat) (i : Nat) (hi : i < n) :
    ∃ c, (runSchedule drv viper schedule (System.start n w)).callers[i]? = some c ∧
      Caller.phase c = min 2 (schedule.count i) := by
  have hstart : (System.start n w).callers[i]? = some Caller.waiting := by
    simp [System.start, hi]
  obtain ⟨d, hd, hph⟩ := phase_run drv viper schedule i (System.start n w) _ hstart
  refine ⟨d, hd, ?_⟩
  rw [hph]
  simp [Caller.phase]

/-- C9.  `n` callers of `GetMySQLFactoryOr` run interleaved under any schedule,
all with the same configuration, and the pool creation made with it reports
no error.  Then at most one `db.New` is issued; as soon as one caller has
taken a step exactly one has been issued (the trace grew by that single
`New`); every caller that has returned holds the same factory pointer with a
nil error; and every caller that was scheduled twice has returned, so when
all are, all `n` hold that same factory. -/
theorem GetMySQLFactoryOr_concurrent_callers (drv : Driver σ) (viper : Viper) (w : World σ)
    (n : Nat) (schedule : List Nat) (hok : (poolCreation drv viper w).2 = none) :
    newCount (concurrentRun drv viper n schedule w).proc.world.trace ≤ newCount w.trace + 1 ∧
      (∀ i : Nat, i < n → i ∈ schedule →
        (concurrentRun drv viper n schedule w).proc.world.trace
            = w.trace ++ [Call.New (readOptions drv viper)] ∧
          newCount (concurrentRun drv viper n schedule w).proc.world.trace
            = newCount w.trace + 1) ∧
      (∀ (i : Nat) (res : Option Ptr × Option Error),
        (concurrentRun drv viper n schedule w).callers[i]? = some (Caller.returned res) →
        res = (some 0, none)) ∧
      (∀ i : Nat, i < n → 2 ≤ schedule.count i →
        (concurrentRun drv viper n schedule w).callers[i]?
          = some (Caller.returned (some 0, none))) := by
  have hinv : System.inv drv viper w (concurrentRun drv viper n schedule w) :=
    inv_run drv viper w hok schedule _ (inv_start drv viper w n)
  have hnew : newCount (w.trace ++ [Call.New (readOptions drv viper)]) = newCount w.trace + 1 := by
    rw [newCount_append]
    rfl
  have hret : ∀ (i : Nat) (res : Option Ptr × Option Error),
      (concurrentRun drv viper n schedule w).callers[i]? = some (Caller.returned res) →
        res = (some 0, none) := by
    intro i res hres
    have hmem := List.getElem?_mem hres
    rcases hinv with ⟨_, hall⟩ | ⟨_, hall⟩
    · exact absurd (hall _ hmem) (by simp)
    · exact hall _ hmem
  refine ⟨?_, ?_, hret, ?_⟩
  · rcases hinv with ⟨hp, _⟩ | ⟨hp, _⟩
    · rw [hp]
      exact Nat.le_succ _
    · rw [hp, firstCall_state, hnew]
  · intro i hi hmem
    obtain ⟨c, hc, hph⟩ := phase_from_start drv viper w n schedule i hi
    have hpos : 0 < schedule.count i := List.count_pos_iff.mpr hmem
    have hcmem : c ∈ (concurrentRun drv viper n schedule w).callers := List.getElem?_mem hc
    rcases hinv with ⟨_, hall⟩ | ⟨hp, _⟩
    · rw [hall c hcmem] at hph
      simp only [Caller.phase] at hph
      omega
    · rw [hp, firstCall_state]
      exact ⟨rfl, hnew⟩
  · intro i hi hcount
    obtain ⟨c, hc, hph⟩ := phase_from_start drv viper w n schedule i hi
    have hc2 : (concurrentRun drv viper n schedule w).callers[i]? = some c := hc
    cases c with
    | waiting => simp only [Caller.phase] at hph; omega
    | past err d => simp only [Caller.phase] at hph; omega
    | returned res => rw [hc2, hret i res hc2]

theorem GetMySQLFactoryOr_concurrent_callers_witness :
    (poolCreation (sampleDriver 0 false none [] []) (sampleViper "h1") world0).2 = none ∧
      (concurrentRun (sampleDriver 0 false none [] []) (sampleViper "h1") 3 [0, 1, 0, 2, 2, 1]
          world0).callers[2]? = some (Caller.returned (some 0, none)) ∧
      (concurrentRun (sampleDriver 0 false none [] []) (sampleViper "h1") 3 [0, 1, 0, 2, 2, 1]
          world0).callers[0]? = some (Caller.returned (some 0, none)) ∧
      (concurrentRun (sampleDriver 0 false none [] []) (sampleViper "h1") 3 [0, 1, 0, 2, 2, 1]
          world0).callers[1]? = some (Caller.returned (some 0, none)) ∧
      newCount (concurrentRun (sampleDriver 0 false none [] []) (sampleViper "h1") 3
          [0, 1, 0, 2, 2, 1] world0).proc.world.trace = newCount world0.trace + 1 :=
  ⟨rfl,
    (GetMySQLFactoryOr_concurrent_callers (sampleDriver 0 false none [] []) (sampleViper "h1")
      world0 3 [0, 1, 0, 2, 2, 1] rfl).2.2.2 2 (by decide) (by decide),
    (GetMySQLFactoryOr_concurrent_callers (sampleDriver 0 false none [] []) (sampleViper "h1")
      world0 3 [0, 1, 0, 2, 2, 1] rfl).2.2.2 0 (by decide) (by decide),
    (GetMySQLFactoryOr_concurrent_callers (sampleDriver 0 false none [] []) (sampleViper "h1")
      world0 3 [0, 1, 0, 2, 2, 1] rfl).2.2.2 1 (by decide) (by decide),
    ((GetMySQLFactoryOr_concurrent_callers (sampleDriver 0 false none [] []) (sampleViper "h1")
      world0 3 [0, 1, 0, 2, 2, 1] rfl).2.1 0 (by decide) (by decide)).2⟩

end GoServer
